import Mathlib

/-!
Verification of the ink-visual-testing snapshot pipeline.

Shallow embedding of the repository's TypeScript sources:
  - src/index.ts        (cleanAnsiData, getCIOptimizedConfig, createSnapshotFromPty, fixedPtyRender)
  - src/terminalScreenshotFontPatch.ts (normaliseFamilies, withEmojiFontConfig, patchedGenerateTemplate)
  - src/emojiFonts.ts   (EMOJI_FONT_OPTIONS, getEmojiFontPath)
  - src/visualTest.ts   (visualTest comparison phase)
  - tests/utils/imageDiff.ts (comparePng, expectVisualSnapshot)

JavaScript strings are modelled as `List Char` (lists of Unicode code points) or
as Lean `String`; JS `undefined`/optional values as `Option`; thrown `Error`s as
structured error values whose fields are exactly the data interpolated into the
JS error message.  Third-party functions (pixelmatch, the ANSI-stripping regex)
are taken as parameters, since no claim depends on their internals.
-/

namespace InkVisualTesting

/-! ### ANSI stream normalizer: cleanAnsiData (src/index.ts lines 19-21) -/

/-- Variation Selector-16, the code point U+FE0F. -/
def vs16 : Char := Char.ofNat 0xFE0F

/-- cleanAnsiData from src/index.ts lines 19-21: `data.replace(/️/g, '')`.
U+FE0F is a single UTF-16 code unit and a single code point, so the global
replacement by the empty string deletes exactly the occurrences of that code
point and nothing else. -/
def cleanAnsiData (s : List Char) : List Char := s.filter (fun c => c ≠ vs16)

/-! ### Font stack resolver: normaliseFamilies (src/terminalScreenshotFontPatch.ts lines 33-64) -/

/-- One step of the `for (const family of families)` loop at lines 56-61: the
state is the pair (ordered, seen); the family is appended to both exactly when
it is not yet in `seen`.  The JS `Set` is modelled by the list `seen` (only
membership is ever queried). -/
def pushFam (acc : List String × List String) (f : String) : List String × List String :=
  if f ∈ acc.2 then acc else (acc.1 ++ [f], acc.2 ++ [f])

/-- The guarded append at lines 46-49 and 51-54 of
src/terminalScreenshotFontPatch.ts: `if (family && !seen.has(family))` pushes
the family onto `ordered` and adds it to `seen`.  The JS truthiness test
rejects both `undefined` and the empty string. -/
def pushTruthy (st : List String × List String) : Option String → List String × List String
  | some f => if f ≠ "" ∧ f ∉ st.2 then (st.1 ++ [f], st.2 ++ [f]) else st
  | none => st

/-- normaliseFamilies from src/terminalScreenshotFontPatch.ts lines 33-64.
The caller string is split on commas, each entry trimmed, empty entries dropped
(JS `.filter(Boolean)`); then starting from the empty (ordered, seen) state the
emoji family is pushed (when truthy and unseen), then the bundled base family,
then each caller entry in order. -/
def normaliseFamilies (baseFamily : String) (emojiFamily bundledBaseFamily : Option String) :
    List String :=
  let families := ((baseFamily.splitOn ",").map String.trim).filter (fun s => s ≠ "")
  (families.foldl pushFam (pushTruthy (pushTruthy (([], []) : List String × List String) emojiFamily) bundledBaseFamily)).1

/-- Single-list version of `pushFam`, used to reason about the loop once the
`ordered` and `seen` components are known to coincide. -/
def pushIfNew (acc : List String) (f : String) : List String :=
  if f ∈ acc then acc else acc ++ [f]

/-- First-occurrence de-duplication relative to an already-seen list.  This is
the spec's wording of the algorithm: walk the candidates in order and keep each
one exactly when it has not appeared before. -/
def dropDups (seen : List String) : List String → List String
  | [] => []
  | f :: rest => if f ∈ seen then dropDups seen rest else f :: dropDups (f :: seen) rest

/-- The list a truthy optional family contributes: one element when present and
non-empty, nothing otherwise (JS truthiness on `string | undefined`). -/
def truthyList : Option String → List String
  | some f => if f = "" then [] else [f]
  | none => []

/-- The caller's comma-separated font-family string split on commas, trimmed,
with empty entries dropped — the spec's reading of lines 38-41. -/
def callerEntries (baseFamily : String) : List String :=
  ((baseFamily.splitOn ",").map String.trim).filter (fun s => s ≠ "")

/-- buildFontStack as the spec (§4.3) words it: start empty; append the emoji
family if given and not already present; append the base family if given and
not already present; then append each caller entry (split on commas, trimmed,
empties dropped) if not already present — i.e. first-occurrence de-duplication
of the concatenation.  This is the spec-side definition to be compared with the
source-side `normaliseFamilies`. -/
def specFontStack (baseFamily : String) (emojiFamily bundledBaseFamily : Option String) :
    List String :=
  dropDups [] (truthyList emojiFamily ++ truthyList bundledBaseFamily ++ callerEntries baseFamily)

/-! ### Emoji fonts: EMOJI_FONT_OPTIONS and getEmojiFontPath (src/emojiFonts.ts) -/

/-- EmojiFontOption from src/emojiFonts.ts lines 4-9. -/
structure EmojiFontOption where
  key : String
  description : String
  path : Option String := none
  family : Option String := none
deriving DecidableEq

/-- EMOJI_FONT_OPTIONS from src/emojiFonts.ts lines 11-40, as the lookup
function the record supports: `EMOJI_FONT_OPTIONS[key]` is `undefined` for any
key other than the five declared ones. -/
def EMOJI_FONT_OPTIONS : String → Option EmojiFontOption := fun key =>
  if key = "system" then
    some { key := "system", description := "Use system font stack (no local font override)" }
  else if key = "color" then
    some { key := "color", description := "Use bundled NotoColorEmoji.ttf (color)",
           path := some "font/NotoColorEmoji.ttf", family := some "InkSnapshotEmoji" }
  else if key = "mono" then
    some { key := "mono", description := "Use bundled NotoEmoji-Regular.ttf (monochrome)",
           path := some "font/NotoEmoji-Regular.ttf", family := some "InkSnapshotEmojiMono" }
  else if key = "twemoji" then
    some { key := "twemoji", description := "Use bundled TwemojiMozilla.ttf (color)",
           path := some "font/TwemojiMozilla.ttf", family := some "InkSnapshotTwemoji" }
  else if key = "unifont" then
    some { key := "unifont", description := "Use bundled Unifont.otf (monochrome bitmap)",
           path := some "font/Unifont.otf", family := some "InkSnapshotUnifont" }
  else none

/-- getEmojiFontPath from src/emojiFonts.ts lines 65-76: undefined when the key
is unknown or the option has no path; otherwise the bundled relative path
resolved against the package root (`path.resolve(dirname, '..', option.path)`,
modelled by prepending `packageRoot`). -/
def getEmojiFontPath (packageRoot : String) (key : String) : Option String :=
  match EMOJI_FONT_OPTIONS key with
  | none => none
  | some o =>
    match o.path with
    | none => none
    | some p => some (packageRoot ++ "/" ++ p)

/-- Modelled from the spec: src/baseFont.ts is not under src/ (only its tests
and callers are).  Spec §4.3 resolveBaseFont: "returns the single bundled
monospace base font ...; this is always available".  The repository's tests pin
the family name 'InkSnapshotBaseMono' and a DejaVuSansMono .ttf path under the
package font directory.  Returns (path, family). -/
def getBundledBaseFont (packageRoot : String) : String × String :=
  (packageRoot ++ "/font/DejaVuSansMono.ttf", "InkSnapshotBaseMono")

/-! ### getCIOptimizedConfig (src/index.ts lines 65-101) -/

/-- BaseFontMode from src/index.ts line 65: 'bundled' | 'system'. -/
inductive BaseFontMode where
  | bundled
  | system
deriving DecidableEq

/-- CIOptimizedConfigOptions from src/index.ts lines 67-70. -/
structure CIOptimizedConfigOptions where
  emojiFontKey : Option String := none
  baseFont : Option BaseFontMode := none
deriving DecidableEq

/-- The object getCIOptimizedConfig returns (src/index.ts lines 91-100): a
partial NodePtySnapshotOptions.  Fields it never sets (command, cols, rows, ...)
are omitted. -/
structure CIConfig where
  emojiFontPath : Option String
  emojiFontFamily : Option String
  baseFontPath : Option String
  baseFontFamily : Option String
  fontFamily : String
  timeout : Nat
  margin : Nat
  backgroundColor : String
deriving DecidableEq

/-- getCIOptimizedConfig from src/index.ts lines 72-101.  The JS parameter
`optionsOrEmojiKey?: string | CIOptimizedConfigOptions` is modelled by an
optional sum.  The emoji key defaults to 'noto', the base font mode to
'bundled'. -/
def getCIOptimizedConfig (packageRoot : String)
    (optionsOrEmojiKey : Option (String ⊕ CIOptimizedConfigOptions)) : CIConfig :=
  let emojiFontKey := match optionsOrEmojiKey with
    | some (.inl k) => k
    | some (.inr o) => o.emojiFontKey.getD "noto"
    | none => "noto"
  let baseFont : BaseFontMode := match optionsOrEmojiKey with
    | some (.inr o) => o.baseFont.getD .bundled
    | _ => .bundled
  let emojiFontPath :=
    if emojiFontKey = "system" then none else getEmojiFontPath packageRoot emojiFontKey
  let emojiOption := EMOJI_FONT_OPTIONS emojiFontKey
  let bundledBase := getBundledBaseFont packageRoot
  let useBundledBase := baseFont = BaseFontMode.bundled
  { emojiFontPath := emojiFontPath
    emojiFontFamily := emojiOption.bind (fun o => o.family)
    baseFontPath := if useBundledBase then some bundledBase.1 else none
    baseFontFamily := if useBundledBase then some bundledBase.2 else none
    fontFamily := "DejaVu Sans Mono, monospace"
    timeout := 60000
    margin := 12
    backgroundColor := "#000000" }

/-! ### Capture options and the PTY promise (src/index.ts lines 103-191) -/

/-- NodePtySnapshotOptions from src/index.ts lines 103-120.  Optional JS fields
are `Option`s; `env` is omitted (no claim concerns the environment merge). -/
structure NodePtySnapshotOptions where
  command : String
  args : List String := []
  outputPath : String
  cols : Option Nat := none
  rows : Option Nat := none
  margin : Option Nat := none
  backgroundColor : Option String := none
  fontFamily : Option String := none
  type : Option String := none
  emojiFontPath : Option String := none
  emojiFontFamily : Option String := none
  baseFontPath : Option String := none
  baseFontFamily : Option String := none
  timeout : Option Nat := none
deriving DecidableEq

/-- The cols default of src/index.ts line 127: `cols = process.stdout.columns ?? 80`.
`stdoutCols` models `process.stdout.columns` (undefined when not a terminal). -/
def effectiveCols (o : NodePtySnapshotOptions) (stdoutCols : Option Nat) : Nat :=
  o.cols.getD (stdoutCols.getD 80)

/-- The rows default of src/index.ts line 128: `rows = process.stdout.rows ?? 24`. -/
def effectiveRows (o : NodePtySnapshotOptions) (stdoutRows : Option Nat) : Nat :=
  o.rows.getD (stdoutRows.getD 24)

/-- The timeout default of src/index.ts line 138: `timeout = 30000`. -/
def effectiveTimeout (o : NodePtySnapshotOptions) : Nat :=
  o.timeout.getD 30000

/-- The error thrown on a failing exit, src/index.ts lines 183-186: its message
interpolates the exit code, the command and the joined arguments. -/
inductive PtyError where
  | processExit (exitCode : Int) (command : String) (args : List String)
deriving DecidableEq

/-- The onExit handler of src/index.ts lines 179-190.  `exitCode` is the value
node-pty reports (`Option Int`: `none` models null/undefined).  The JS guard is
`if (exitCode && exitCode !== 0)`: a null/undefined exit code is falsy, as is 0,
so both resolve; any other number rejects.  A resolution lets the pipeline
continue with the captured bytes. -/
def onExit (command : String) (args : List String) (exitCode : Option Int)
    (captured : List Char) : Except PtyError (List Char) :=
  match exitCode with
  | some c => if c ≠ 0 then .error (.processExit c command args) else .ok captured
  | none => .ok captured

/-- The timer guard of src/index.ts line 169: a timeout is armed only when
`timeout > 0`. -/
def timerArmed (timeout : Nat) : Bool := timeout > 0

/-- How the promise of src/index.ts lines 165-191 settles.  The timeout
rejection (lines 170-176) first calls `pty.kill()` — recorded in `childKilled`
— and its message interpolates the timeout, the command and the joined
arguments, recorded as fields. -/
inductive CaptureOutcome where
  | timedOut (childKilled : Bool) (timeoutMs : Nat) (command : String) (args : List String)
  | exitRejected (e : PtyError)
  | exited (captured : List Char)
  | neverSettles
deriving DecidableEq

/-- Semantics of the promise body (src/index.ts lines 165-191) on a schedule in
which the child exits at `exitAt` milliseconds (`none`: never exits) with
`exitCode`.  When armed, the timer fires at `timeout` ms; an exit delivered
first clears it (line 180).  With no timer and no exit the promise never
settles. -/
def captureOutcome (timeout : Nat) (command : String) (args : List String)
    (captured : List Char) (exitAt : Option Nat) (exitCode : Option Int) : CaptureOutcome :=
  match exitAt with
  | some t =>
    if timerArmed timeout ∧ timeout < t then
      .timedOut true timeout command args
    else
      match onExit command args exitCode captured with
      | .error e => .exitRejected e
      | .ok c => .exited c
  | none =>
    if timerArmed timeout then .timedOut true timeout command args
    else .neverSettles

/-! ### fixedPtyRender (src/index.ts lines 239-282) -/

/-- FixedPtyRenderOptions from src/index.ts lines 239-243: a partial
NodePtySnapshotOptions (command/args/outputPath made optional, outputPath
supplied separately).  `timeout` is a legal field of this type — it is part of
`Partial NodePtySnapshotOptions` and is not among the omitted keys. -/
structure FixedPtyRenderOptions where
  command : Option String := none
  args : Option (List String) := none
  cols : Option Nat := none
  rows : Option Nat := none
  margin : Option Nat := none
  backgroundColor : Option String := none
  fontFamily : Option String := none
  type : Option String := none
  emojiFontPath : Option String := none
  emojiFontFamily : Option String := none
  baseFontPath : Option String := none
  baseFontFamily : Option String := none
  timeout : Option Nat := none
deriving DecidableEq

/-- The NodePtySnapshotOptions that fixedPtyRender (src/index.ts lines 245-282)
passes to createSnapshotFromPty.  `isWin` models `process.platform === 'win32'`.
The destructuring at lines 250-264 does not name `timeout`, and the call at
lines 266-281 does not pass it, so the resulting options carry no timeout. -/
def fixedPtyRender (isWin : Bool) (cliPath outputPath : String)
    (options : FixedPtyRenderOptions) : NodePtySnapshotOptions :=
  { command := options.command.getD (if isWin then "npx.cmd" else "npx")
    args := options.args.getD ["tsx", cliPath]
    outputPath := outputPath
    cols := some (options.cols.getD 120)
    rows := some (options.rows.getD 60)
    margin := options.margin
    backgroundColor := options.backgroundColor
    fontFamily := options.fontFamily
    type := options.type
    emojiFontPath := options.emojiFontPath
    emojiFontFamily := options.emojiFontFamily
    baseFontPath := options.baseFontPath
    baseFontFamily := options.baseFontFamily
    timeout := none }

/-- The options object visualTest's generated render script passes to
fixedPtyRender (src/visualTest.ts lines 127-140 and 166-179):
`{ ...getCIOptimizedConfig(), cols, rows, backgroundColor }` — the CI config
spread first, then cols/rows/backgroundColor overridden. -/
def visualTestRenderOptions (packageRoot : String) (cols rows : Nat)
    (backgroundColor : String) : FixedPtyRenderOptions :=
  let ci := getCIOptimizedConfig packageRoot none
  { emojiFontPath := ci.emojiFontPath
    emojiFontFamily := ci.emojiFontFamily
    baseFontPath := ci.baseFontPath
    baseFontFamily := ci.baseFontFamily
    fontFamily := some ci.fontFamily
    timeout := some ci.timeout
    margin := some ci.margin
    backgroundColor := some backgroundColor
    cols := some cols
    rows := some rows }

/-! ### Font patch and template dimensions (src/terminalScreenshotFontPatch.ts) -/

/-- SnapshotFontConfig from src/terminalScreenshotFontPatch.ts lines 10-17. -/
structure SnapshotFontConfig where
  emojiFontPath : Option String := none
  emojiFontFamily : Option String := none
  baseFontPath : Option String := none
  baseFontFamily : Option String := none
  cols : Option Nat := none
  rows : Option Nat := none
deriving DecidableEq

/-- JS truthiness of a `string | undefined` value: undefined and the empty
string are falsy. -/
def truthyStr : Option String → Bool
  | none => false
  | some s => s ≠ ""

/-- The guard of withEmojiFontConfig, src/terminalScreenshotFontPatch.ts line 84:
`if (!config || (!config.emojiFontPath && !config.baseFontPath)) return fn();`.
The shared slot `currentFontConfig` is set for the duration of the render call
exactly when this returns true. -/
def fontPatchActive (config : Option SnapshotFontConfig) : Bool :=
  match config with
  | none => false
  | some c => truthyStr c.emojiFontPath || truthyStr c.baseFontPath

/-- The value of `currentFontConfig` while the render call runs under
withEmojiFontConfig (src/terminalScreenshotFontPatch.ts lines 83-94). -/
def installedFontConfig (config : Option SnapshotFontConfig) : Option SnapshotFontConfig :=
  if fontPatchActive config then config else none

/-- JS `data.split(/\r?\n/)` on a list of code points: each newline terminates
a line, consuming one immediately preceding carriage return. -/
def splitLinesJS : List Char → List (List Char)
  | [] => [[]]
  | '\r' :: '\n' :: rest => [] :: splitLinesJS rest
  | '\n' :: rest => [] :: splitLinesJS rest
  | c :: rest =>
    match splitLinesJS rest with
    | [] => [[c]]
    | l :: ls => (c :: l) :: ls

/-- The fallback column computation of src/terminalScreenshotFontPatch.ts
lines 115-124: `Math.max` of the lengths of the lines after stripping ANSI
escapes.  The stripping regex is third-party-style text surgery no claim
depends on, so it is a parameter. -/
def maxStrippedLineLength (stripAnsi : List Char → List Char) (data : List Char) : Nat :=
  ((splitLinesJS data).map (fun line => (stripAnsi line).length)).foldl max 0

/-- Where the terminal dimensions used by template generation come from.
`fromOriginal` means the patched generateTemplate found no installed config and
delegated to the unpatched terminal-screenshot generateTemplate (line 98) — that
function receives only { data, margin, backgroundColor, fontFamily, type } (the
renderScreenshot call at src/index.ts lines 227-233 passes nothing else), so no
cols/rows reach it and it must derive dimensions from the data. -/
inductive TemplateDims where
  | fromOriginal
  | fixed (cols rows : Nat)
  | derivedFromData (cols rows : Nat)
deriving DecidableEq

/-- The dimension selection of patchedGenerateTemplate,
src/terminalScreenshotFontPatch.ts lines 96-127: no installed config delegates
to the original; with a config, cols/rows are used verbatim when both are
defined, otherwise recomputed from the data (rows = number of split lines,
cols = max stripped line length). -/
def patchedTemplateDims (stripAnsi : List Char → List Char)
    (current : Option SnapshotFontConfig) (data : List Char) : TemplateDims :=
  match current with
  | none => .fromOriginal
  | some cfg =>
    match cfg.cols, cfg.rows with
    | some c, some r => .fixed c r
    | _, _ => .derivedFromData (maxStrippedLineLength stripAnsi data) (splitLinesJS data).length

/-- The fontConfig object createSnapshotFromPty builds at src/index.ts
lines 193-200: the four font fields from the options plus the cols/rows the PTY
was spawned with (always defined there). -/
def snapshotFontConfig (o : NodePtySnapshotOptions) (stdoutCols stdoutRows : Option Nat) :
    SnapshotFontConfig :=
  { emojiFontPath := o.emojiFontPath
    emojiFontFamily := o.emojiFontFamily
    baseFontPath := o.baseFontPath
    baseFontFamily := o.baseFontFamily
    cols := some (effectiveCols o stdoutCols)
    rows := some (effectiveRows o stdoutRows) }

/-- The terminal dimensions the template generation ends up with for a capture
run through createSnapshotFromPty (src/index.ts lines 193-234): the fontConfig
is installed by withEmojiFontConfig only when it has a truthy font path, and
the data written to the terminal is the cleaned capture. -/
def snapshotRendererDims (stripAnsi : List Char → List Char)
    (o : NodePtySnapshotOptions) (stdoutCols stdoutRows : Option Nat)
    (captured : List Char) : TemplateDims :=
  patchedTemplateDims stripAnsi
    (installedFontConfig (some (snapshotFontConfig o stdoutCols stdoutRows)))
    (cleanAnsiData captured)

/-! ### Pixel comparator (tests/utils/imageDiff.ts) -/

/-- A decoded PNG as comparePng sees it: dimensions plus an abstract pixel
buffer. -/
structure Png where
  width : Nat
  height : Nat
  data : List Nat := []
deriving DecidableEq

/-- The successful CompareResult of tests/utils/imageDiff.ts lines 11-16.
The derived diffPercentage (100 * diffPixels / totalPixels, used only inside
message strings) is omitted. -/
structure CompareResult where
  diffPixels : Nat
  totalPixels : Nat
  diffPath : String
deriving DecidableEq

/-- The two errors comparePng can throw (tests/utils/imageDiff.ts lines 28 and
48-50); the tolerance error's message interpolates the differing pixel count
and the diff path, recorded as fields. -/
inductive CompareError where
  | dimensionMismatch
  | toleranceExceeded (diffPixels : Nat) (diffPath : String)
deriving DecidableEq

/-- Which side effects a comparePng call performed: whether pixelmatch ran and
whether the diff image was written. -/
structure CompareTrace where
  pixelmatchRan : Bool
  diffWritten : Bool
deriving DecidableEq

/-- comparePng from tests/utils/imageDiff.ts lines 18-54 (defaults:
threshold 0.1, maxDiffPixels 0).  pixelmatch is third-party and is a parameter
`pm` taking the threshold and the two decoded images.  The dimension check at
lines 27-29 throws before pixelmatch runs and before the diff image is written;
otherwise the diff image is written unconditionally (lines 44-45) and the
tolerance check decides between throwing and returning. -/
def comparePng (pm : ℚ → Png → Png → Nat) (actual baseline : Png)
    (diffPath : String) (threshold : ℚ) (maxDiffPixels : Nat) :
    Except CompareError CompareResult × CompareTrace :=
  if actual.width ≠ baseline.width ∨ actual.height ≠ baseline.height then
    (.error .dimensionMismatch, ⟨false, false⟩)
  else
    let diffPixels := pm threshold actual baseline
    let totalPixels := actual.width * actual.height
    if diffPixels > maxDiffPixels then
      (.error (.toleranceExceeded diffPixels diffPath), ⟨true, true⟩)
    else
      (.ok ⟨diffPixels, totalPixels, diffPath⟩, ⟨true, true⟩)

/-! ### visualTest comparison phase (src/visualTest.ts lines 193-224) and
expectVisualSnapshot (tests/utils/imageDiff.ts lines 101-170) -/

/-- How the comparison phase of visualTest ends. -/
inductive VisualTestOutcome where
  | baselineCreated
  | baselineNotFound
  | compareError (e : CompareError)
  | regressionFailed (diffPixels maxDiffPixels : Nat) (diffPath : String)
  | passed (diffPixels : Nat)
deriving DecidableEq

/-- Result of the comparison phase of visualTest: the outcome, whether the
fresh output was copied to the baseline path, and the comparePng trace. -/
structure VisualTestRun where
  outcome : VisualTestOutcome
  baselineWritten : Bool
  trace : CompareTrace
deriving DecidableEq

/-- The baseline-compare phase of visualTest (src/visualTest.ts lines 193-224),
entered after the snapshot was rendered.  `baselineExists` models
`fs.existsSync(baselinePath)`; when the baseline is missing and updateBaseline
holds, the output is copied to the baseline (line 197) and the function returns
success without comparing.  Otherwise comparePng runs; an error it throws
propagates, and its success result is re-checked against maxDiffPixels
(lines 218-224 — dead in practice, since comparePng already threw in that
case). -/
def visualTestComparePhase (pm : ℚ → Png → Png → Nat)
    (baselineExists updateBaseline : Bool) (output baseline : Png)
    (diffPath : String) (threshold : ℚ) (maxDiffPixels : Nat) : VisualTestRun :=
  if !baselineExists then
    if updateBaseline then ⟨.baselineCreated, true, ⟨false, false⟩⟩
    else ⟨.baselineNotFound, false, ⟨false, false⟩⟩
  else
    match comparePng pm output baseline diffPath threshold maxDiffPixels with
    | (.error e, tr) => ⟨.compareError e, false, tr⟩
    | (.ok r, tr) =>
      if r.diffPixels > maxDiffPixels then
        ⟨.regressionFailed r.diffPixels maxDiffPixels diffPath, false, tr⟩
      else ⟨.passed r.diffPixels, false, tr⟩

/-- The outcome field of expectVisualSnapshot's result. -/
inductive SnapshotOutcome where
  | actualMissing
  | updated
  | created
  | matched (diffPixels : Nat)
  | mismatched (e : CompareError)
deriving DecidableEq

/-- Result of expectVisualSnapshot: the pass flag and message case, whether the
actual image was copied to the baseline path, and the comparePng trace. -/
structure SnapshotRun where
  pass : Bool
  outcome : SnapshotOutcome
  baselineWritten : Bool
  trace : CompareTrace
deriving DecidableEq

/-- expectVisualSnapshot from tests/utils/imageDiff.ts lines 101-170:
missing actual image fails early; update mode copies and passes; a missing
baseline copies the actual to the baseline and passes ("New snapshot created")
without comparing; otherwise comparePng runs and a thrown error is caught as a
failing result. -/
def expectVisualSnapshot (pm : ℚ → Png → Png → Nat)
    (actualExists update baselineExists : Bool) (actual baseline : Png)
    (diffPath : String) (threshold : ℚ) (maxDiffPixels : Nat) : SnapshotRun :=
  if !actualExists then ⟨false, .actualMissing, false, ⟨false, false⟩⟩
  else if update then ⟨true, .updated, true, ⟨false, false⟩⟩
  else if !baselineExists then ⟨true, .created, true, ⟨false, false⟩⟩
  else
    match comparePng pm actual baseline diffPath threshold maxDiffPixels with
    | (.ok r, tr) => ⟨true, .matched r.diffPixels, false, tr⟩
    | (.error e, tr) => ⟨false, .mismatched e, false, tr⟩

/-! ### Concrete inputs used by counterexamples and witnesses -/

/-- Capture options with explicit dimensions but no font paths: as spawned by a
caller that passes cols/rows without getCIOptimizedConfig. -/
def noFontOpts : NodePtySnapshotOptions :=
  { command := "npx", args := ["tsx", "cli.tsx"], outputPath := "out.png",
    cols := some 120, rows := some 60 }

/-- Capture options with explicit dimensions and a bundled base font path, the
shape produced by spreading getCIOptimizedConfig into fixedPtyRender. -/
def bundledFontOpts : NodePtySnapshotOptions :=
  { command := "npx", args := ["tsx", "cli.tsx"], outputPath := "out.png",
    cols := some 32, rows := some 10,
    baseFontPath := some "pkg/font/DejaVuSansMono.ttf",
    baseFontFamily := some "InkSnapshotBaseMono" }

/-- A concrete pixelmatch stand-in reporting 7 differing pixels. -/
def pmConst7 : ℚ → Png → Png → Nat := fun _ _ _ => 7

/-- A concrete pixelmatch stand-in reporting 3 differing pixels. -/
def pmConst3 : ℚ → Png → Png → Nat := fun _ _ _ => 3

/-- A 2 by 3 image. -/
def pngA : Png := ⟨2, 3, [0, 0, 0, 0]⟩

/-- A 3 by 3 image. -/
def pngB : Png := ⟨3, 3, [1, 1, 1, 1]⟩

/-- A 2 by 2 image. -/
def pngC : Png := ⟨2, 2, [0, 0, 0, 0]⟩

/-- Another 2 by 2 image. -/
def pngD : Png := ⟨2, 2, [9, 9, 9, 9]⟩

/-! ## Helper lemmas -/

theorem pushFam_pair (l : List String) (f : String) :
    pushFam (l, l) f = (pushIfNew l f, pushIfNew l f) := by
  simp only [pushFam, pushIfNew]
  split <;> rfl

theorem foldl_pushFam_pair (fs : List String) :
    ∀ l : List String, fs.foldl pushFam (l, l) = (fs.foldl pushIfNew l, fs.foldl pushIfNew l) := by
  induction fs with
  | nil => intro l; rfl
  | cons f fs ih =>
    intro l
    simp only [List.foldl_cons, pushFam_pair]
    exact ih _

theorem pushTruthy_pair (l : List String) (o : Option String) :
    pushTruthy (l, l) o = ((truthyList o).foldl pushIfNew l, (truthyList o).foldl pushIfNew l) := by
  rcases o with _ | f
  · rfl
  · by_cases hf : f = ""
    · subst hf
      simp [pushTruthy, truthyList]
    · by_cases hfl : f ∈ l
      · simp [pushTruthy, truthyList, pushIfNew, hf, hfl]
      · simp [pushTruthy, truthyList, pushIfNew, hf, hfl]

theorem dropDups_congr (l : List String) :
    ∀ s1 s2 : List String, (∀ x, x ∈ s1 ↔ x ∈ s2) → dropDups s1 l = dropDups s2 l := by
  induction l with
  | nil => intro s1 s2 _; rfl
  | cons f l ih =>
    intro s1 s2 h
    simp only [dropDups]
    by_cases hf : f ∈ s1
    · rw [if_pos hf, if_pos ((h f).1 hf)]
      exact ih s1 s2 h
    · rw [if_neg hf, if_neg (fun hx => hf ((h f).2 hx))]
      rw [ih (f :: s1) (f :: s2) (by intro x; simp [List.mem_cons, h x])]

theorem foldl_pushIfNew_eq (fs : List String) :
    ∀ acc : List String, fs.foldl pushIfNew acc = acc ++ dropDups acc fs := by
  induction fs with
  | nil => intro acc; simp [dropDups]
  | cons f fs ih =>
    intro acc
    simp only [List.foldl_cons, dropDups]
    by_cases hf : f ∈ acc
    · rw [if_pos hf]
      have hstep : pushIfNew acc f = acc := by simp [pushIfNew, hf]
      rw [hstep]
      exact ih acc
    · rw [if_neg hf]
      have hstep : pushIfNew acc f = acc ++ [f] := by simp [pushIfNew, hf]
      rw [hstep, ih (acc ++ [f])]
      rw [dropDups_congr fs (acc ++ [f]) (f :: acc)
        (by intro x; simp [List.mem_append, List.mem_cons, or_comm])]
      simp

theorem foldl_pushIfNew_nil (fs : List String) :
    fs.foldl pushIfNew [] = dropDups [] fs := by
  simpa using foldl_pushIfNew_eq fs []

theorem dropDups_nodup (l : List String) :
    ∀ seen : List String, (dropDups seen l).Nodup ∧ ∀ x ∈ dropDups seen l, x ∉ seen := by
  induction l with
  | nil =>
    intro seen
    exact ⟨List.nodup_nil, by intro x hx; cases hx⟩
  | cons f l ih =>
    intro seen
    simp only [dropDups]
    by_cases hf : f ∈ seen
    · rw [if_pos hf]
      exact ih seen
    · rw [if_neg hf]
      obtain ⟨hnd, hmem⟩ := ih (f :: seen)
      refine ⟨List.nodup_cons.2 ⟨fun hx => hmem f hx (List.mem_cons_self f seen), hnd⟩, ?_⟩
      intro x hx
      rcases List.mem_cons.1 hx with rfl | hx
      · exact hf
      · exact fun hxs => hmem x hx (List.mem_cons_of_mem f hxs)

theorem normaliseFamilies_foldl (base : String) (e b : Option String) :
    normaliseFamilies base e b =
      (truthyList e ++ truthyList b ++ callerEntries base).foldl pushIfNew [] := by
  simp only [normaliseFamilies, callerEntries, pushTruthy_pair, foldl_pushFam_pair,
    List.foldl_append]

theorem normaliseFamilies_eq_specFontStack (base : String) (e b : Option String) :
    normaliseFamilies base e b = specFontStack base e b := by
  rw [normaliseFamilies_foldl, specFontStack, ← foldl_pushIfNew_nil]

/-! ## Claim theorems -/

/-- C2: cleanAnsiData contains no occurrence of U+FE0F, preserves the count of
every other code point, preserves their order (the result is a sublist of the
input), and is idempotent. -/
theorem cleanAnsiData_normalizes (s : List Char) :
    (cleanAnsiData s).count vs16 = 0 ∧
    (∀ c : Char, c ≠ vs16 → (cleanAnsiData s).count c = s.count c) ∧
    (cleanAnsiData s).Sublist s ∧
    cleanAnsiData (cleanAnsiData s) = cleanAnsiData s := by
  refine ⟨?_, ?_, ?_, ?_⟩
  · rw [List.count_eq_zero]
    simp [cleanAnsiData]
  · intro c hc
    exact List.count_filter (by simpa using hc)
  · exact List.filter_sublist s
  · simp [cleanAnsiData, List.filter_filter]

/-- C2 witness: the second conjunct has the hypothesis c ≠ U+FE0F; instantiate
the theorem on a concrete stream holding an emoji, a variation selector and a
box-drawing character. -/
theorem cleanAnsiData_normalizes_witness :
    ('A' : Char) ≠ vs16 ∧
    (cleanAnsiData [vs16, 'A', vs16, 'B']).count vs16 = 0 ∧
    (cleanAnsiData [vs16, 'A', vs16, 'B']).count 'A' = ([vs16, 'A', vs16, 'B'] : List Char).count 'A' ∧
    cleanAnsiData (cleanAnsiData [vs16, 'A', vs16, 'B']) = cleanAnsiData [vs16, 'A', vs16, 'B'] := by
  have h := cleanAnsiData_normalizes [vs16, 'A', vs16, 'B']
  exact ⟨by decide, h.1, h.2.1 'A' (by decide), h.2.2.2⟩

/-- C3: for any caller comma-separated fallback string and optional emoji and
base families, the stack normaliseFamilies builds has no duplicate entries and
equals the spec's buildFontStack: first-occurrence de-duplication of the emoji
family (if given), then the base family (if given), then the caller's entries
split on commas, trimmed, with empty entries dropped, in their original
order. -/
theorem normaliseFamilies_correct (base : String) (e b : Option String) :
    (normaliseFamilies base e b).Nodup ∧
    normaliseFamilies base e b = specFontStack base e b := by
  refine ⟨?_, normaliseFamilies_eq_specFontStack base e b⟩
  rw [normaliseFamilies_eq_specFontStack, specFontStack]
  exact (dropDups_nodup _ _).1

/-- C1 counterexample: a capture spawned with cols=120, rows=60 but no emoji or
base font path bypasses the font patch entirely — template generation is
delegated to the unpatched original, which is never given the spawn dimensions
(the renderScreenshot call passes only data, margin, backgroundColor,
fontFamily and type), so the renderer does not receive C and R. -/
theorem snapshotDims_counterexample :
    snapshotRendererDims (fun l => l) noFontOpts none none [] = .fromOriginal ∧
    TemplateDims.fromOriginal ≠ TemplateDims.fixed 120 60 := by
  exact ⟨rfl, by decide⟩

/-- C1 (amended): when the capture options carry a truthy emoji font path or
base font path, the snapshot renderer is handed exactly the spawn columns C and
rows R, for every captured byte stream and every ANSI stripper — the dimensions
are never recomputed from the captured text. -/
theorem snapshotDims_propagated (stripAnsi : List Char → List Char)
    (o : NodePtySnapshotOptions) (sc sr : Option Nat) (captured : List Char)
    (C R : Nat) (hc : o.cols = some C) (hr : o.rows = some R)
    (hfont : truthyStr o.emojiFontPath = true ∨ truthyStr o.baseFontPath = true) :
    snapshotRendererDims stripAnsi o sc sr captured = .fixed C R := by
  rcases hfont with h | h <;>
    simp [snapshotRendererDims, installedFontConfig, fontPatchActive, snapshotFontConfig,
      patchedTemplateDims, effectiveCols, effectiveRows, hc, hr, h]

/-- C1 witness: concrete options with explicit 32 by 10 dimensions and a
bundled base font path propagate exactly those dimensions. -/
theorem snapshotDims_propagated_witness :
    bundledFontOpts.cols = some 32 ∧ bundledFontOpts.rows = some 10 ∧
    (truthyStr bundledFontOpts.emojiFontPath = true ∨
      truthyStr bundledFontOpts.baseFontPath = true) ∧
    snapshotRendererDims (fun l => l) bundledFontOpts none none [vs16, 'A'] = .fixed 32 10 :=
  ⟨rfl, rfl, Or.inr rfl,
    snapshotDims_propagated (fun l => l) bundledFontOpts none none [vs16, 'A'] 32 10
      rfl rfl (Or.inr rfl)⟩

/-- C4: getCIOptimizedConfig returns timeout 60000 and visualTest's render
script spreads it into fixedPtyRender's options, but fixedPtyRender does not
forward the timeout field to createSnapshotFromPty, so the capture enforces the
default 30000 ms; a capture with no timeout specified at all also enforces
30000 ms. -/
theorem ciTimeout_not_forwarded :
    (getCIOptimizedConfig "pkg" none).timeout = 60000 ∧
    (visualTestRenderOptions "pkg" 80 24 "#000000").timeout = some 60000 ∧
    (fixedPtyRender false "cli.tsx" "out.png"
      (visualTestRenderOptions "pkg" 80 24 "#000000")).timeout = none ∧
    effectiveTimeout (fixedPtyRender false "cli.tsx" "out.png"
      (visualTestRenderOptions "pkg" 80 24 "#000000")) = 30000 ∧
    effectiveTimeout { command := "npx", outputPath := "out.png" } = 30000 :=
  ⟨rfl, rfl, rfl, rfl, rfl⟩

/-- C5: the capture rejects with the process-exit error exactly when the child
exits with a non-null, non-zero exit code; a null/undefined exit code or exit
code 0 resolves with the captured bytes. -/
theorem onExit_spec (command : String) (args : List String) (captured : List Char)
    (exitCode : Option Int) :
    ((∃ e, onExit command args exitCode captured = .error e) ↔
      ∃ c, exitCode = some c ∧ c ≠ 0) ∧
    (onExit command args exitCode captured = .ok captured ↔
      (exitCode = none ∨ exitCode = some 0)) := by
  rcases exitCode with _ | c
  · simp [onExit]
  · by_cases hc : c = 0
    · subst hc
      simp [onExit]
    · simp [onExit, hc]

/-- C6: a positive timeout that elapses before the child exits kills the child
and rejects with a timeout error carrying the timeout, command and argument
list; with timeout 0 no timer is armed and a capture whose child never exits
waits indefinitely. -/
theorem captureOutcome_timeout_spec (timeout : Nat) (command : String) (args : List String)
    (captured : List Char) (exitAt : Option Nat) (exitCode : Option Int)
    (hpos : 0 < timeout) (hlate : ∀ t, exitAt = some t → timeout < t) :
    captureOutcome timeout command args captured exitAt exitCode =
      .timedOut true timeout command args ∧
    timerArmed 0 = false ∧
    captureOutcome 0 command args captured none exitCode = .neverSettles := by
  refine ⟨?_, rfl, rfl⟩
  rcases exitAt with _ | t
  · simp [captureOutcome, timerArmed, hpos]
  · have ht := hlate t rfl
    simp [captureOutcome, timerArmed, hpos, ht]

/-- C6 witness: a 200 ms timeout with a never-exiting child times out with the
command line attached, and a 0 timeout arms no timer and never settles. -/
theorem captureOutcome_timeout_witness :
    0 < 200 ∧
    captureOutcome 200 "sleep" ["infinity"] [] none none =
      .timedOut true 200 "sleep" ["infinity"] ∧
    timerArmed 0 = false ∧
    captureOutcome 0 "sleep" ["infinity"] [] none none = .neverSettles := by
  have h := captureOutcome_timeout_spec 200 "sleep" ["infinity"] [] none none
    (by decide) (by intro t ht; cases ht)
  exact ⟨by decide, h.1, h.2.1, h.2.2⟩

/-- C7: on a width or height mismatch comparePng fails with the
dimension-mismatch error, pixelmatch never runs, no diff image is written, and
the failure is never the tolerance (pixel-count) error. -/
theorem comparePng_dimension_mismatch (pm : ℚ → Png → Png → Nat)
    (actual baseline : Png) (diffPath : String) (threshold : ℚ) (maxDiffPixels : Nat)
    (h : actual.width ≠ baseline.width ∨ actual.height ≠ baseline.height) :
    comparePng pm actual baseline diffPath threshold maxDiffPixels =
      (.error .dimensionMismatch, ⟨false, false⟩) ∧
    ∀ d p, (comparePng pm actual baseline diffPath threshold maxDiffPixels).1 ≠
      .error (.toleranceExceeded d p) := by
  have heq : comparePng pm actual baseline diffPath threshold maxDiffPixels =
      (.error .dimensionMismatch, ⟨false, false⟩) := by
    unfold comparePng
    rw [if_pos h]
  refine ⟨heq, ?_⟩
  intro d p
  rw [heq]
  simp

/-- C7 witness: a 2 by 3 actual against a 3 by 3 baseline fails with the
dimension-mismatch error and an empty trace. -/
theorem comparePng_dimension_mismatch_witness :
    (pngA.width ≠ pngB.width ∨ pngA.height ≠ pngB.height) ∧
    comparePng pmConst7 pngA pngB "diff.png" (1 / 10) 0 =
      (.error .dimensionMismatch, ⟨false, false⟩) :=
  ⟨Or.inl (by decide),
    (comparePng_dimension_mismatch pmConst7 pngA pngB "diff.png" (1 / 10) 0
      (Or.inl (by decide))).1⟩

/-- C8: on same-sized images the diff image is always written; the comparison
returns the differing pixel count when it is at most maxDiffPixels and fails
with the tolerance error carrying the count and the diff path when it is
greater. -/
theorem comparePng_tolerance_boundary (pm : ℚ → Png → Png → Nat)
    (actual baseline : Png) (diffPath : String) (threshold : ℚ) (N : Nat)
    (hw : actual.width = baseline.width) (hh : actual.height = baseline.height) :
    (pm threshold actual baseline ≤ N →
      comparePng pm actual baseline diffPath threshold N =
        (.ok ⟨pm threshold actual baseline, actual.width * actual.height, diffPath⟩,
          ⟨true, true⟩)) ∧
    (N < pm threshold actual baseline →
      comparePng pm actual baseline diffPath threshold N =
        (.error (.toleranceExceeded (pm threshold actual baseline) diffPath),
          ⟨true, true⟩)) := by
  have hcond : ¬(actual.width ≠ baseline.width ∨ actual.height ≠ baseline.height) := by
    push_neg
    exact ⟨hw, hh⟩
  constructor
  · intro hle
    simp only [comparePng]
    rw [if_neg hcond, if_neg (by omega)]
  · intro hgt
    simp only [comparePng]
    rw [if_neg hcond, if_pos (by omega)]

/-- C8 witness: with 3 differing pixels, maxDiffPixels 3 succeeds with count 3
and maxDiffPixels 2 fails with the tolerance error carrying 3 and the diff
path; the diff image is written in both runs. -/
theorem comparePng_tolerance_boundary_witness :
    (pngC.width = pngD.width ∧ pngC.height = pngD.height) ∧
    comparePng pmConst3 pngC pngD "d.png" (1 / 10) 3 =
      (.ok ⟨3, 4, "d.png"⟩, ⟨true, true⟩) ∧
    comparePng pmConst3 pngC pngD "d.png" (1 / 10) 2 =
      (.error (.toleranceExceeded 3 "d.png"), ⟨true, true⟩) := by
  refine ⟨⟨rfl, rfl⟩, ?_, ?_⟩
  · exact (comparePng_tolerance_boundary pmConst3 pngC pngD "d.png" (1 / 10) 3 rfl rfl).1
      (by decide)
  · exact (comparePng_tolerance_boundary pmConst3 pngC pngD "d.png" (1 / 10) 2 rfl rfl).2
      (by decide)

/-- C9: when the baseline does not exist and baseline updating is enabled (the
default), visualTest copies the fresh output to the baseline and reports
success with pixelmatch never run, no diff written and no tolerance error;
expectVisualSnapshot does the same on its first run. -/
theorem baselineMissing_creates (pm : ℚ → Png → Png → Nat) (output baseline : Png)
    (diffPath : String) (threshold : ℚ) (maxDiffPixels : Nat) :
    visualTestComparePhase pm false true output baseline diffPath threshold maxDiffPixels =
      ⟨.baselineCreated, true, ⟨false, false⟩⟩ ∧
    expectVisualSnapshot pm true false false output baseline diffPath threshold maxDiffPixels =
      ⟨true, .created, true, ⟨false, false⟩⟩ :=
  ⟨rfl, rfl⟩

/-- C10: the default emoji key of getCIOptimizedConfig is 'noto', which is not
among the recognized EMOJI_FONT_OPTIONS keys, so the returned configuration has
neither an emoji font path nor an emoji font family — the host system emoji
font is silently used. -/
theorem getCIOptimizedConfig_noto (packageRoot : String) :
    (getCIOptimizedConfig packageRoot none).emojiFontPath = none ∧
    (getCIOptimizedConfig packageRoot none).emojiFontFamily = none ∧
    EMOJI_FONT_OPTIONS "noto" = none ∧
    ∀ k, (EMOJI_FONT_OPTIONS k).isSome = true ↔
      (k = "system" ∨ k = "color" ∨ k = "mono" ∨ k = "twemoji" ∨ k = "unifont") := by
  refine ⟨rfl, rfl, rfl, ?_⟩
  intro k
  unfold EMOJI_FONT_OPTIONS
  split_ifs with h1 h2 h3 h4 h5 <;> simp_all

end InkVisualTesting
